import Mathlib

deriving instance DecidableEq for Except

/-!
Shallow embedding of the `omnihelper` repository:
* `io_helper/file_ops.py` — `list_files_in_directory`
* `core/logger.py` — `setup_logger`

Filesystem interaction is modelled by an explicit `FS` record: a current
working directory, a resolver for user-supplied paths, and a lookup from
resolved paths to what is found there (absent / regular file / directory
with entries and a permission flag).  `os.scandir` entries are modelled by
`DirEntry` records carrying the entry name, its kind (determined without
following symlinks, as `entry.is_file(follow_symlinks=False)` does), and a
flag `metaFail` meaning the `is_file` metadata access raises `OSError`.
-/

namespace Omnipy

/-! ### Glob matching (`fnmatch.fnmatch`, POSIX: case-sensitive) -/

/-- Membership of a character in a bracket expression body:
single characters and `a-b` ranges; a trailing `-` is literal. -/
def matchSet : List Char → Char → Bool
  | [], _ => false
  | [x], c => x == c
  | x :: '-' :: y :: rest, c => (x ≤ c && c ≤ y) || matchSet rest c
  | x :: rest, c => (x == c) || matchSet rest c

/-- Scan forward to the closing `]` of a bracket expression, returning
the body and the remainder of the pattern. -/
def findClose : List Char → Option (List Char × List Char)
  | [] => none
  | ']' :: rest => some ([], rest)
  | c :: rest => (findClose rest).map (fun pr => (c :: pr.1, pr.2))

/-- Parse what follows a `[`: an optional `!` negation, a body in which a
leading `]` is literal, and the closing `]`.  `none` when there is no
closing `]`, in which case the `[` is treated as a literal character. -/
def parseBracket (ps : List Char) : Option (Bool × List Char × List Char) :=
  match ps with
  | '!' :: t =>
    (match t with
     | ']' :: t2 => (findClose t2).map (fun pr => (true, ']' :: pr.1, pr.2))
     | _ => (findClose t).map (fun pr => (true, pr.1, pr.2)))
  | ']' :: t => (findClose t).map (fun pr => (false, ']' :: pr.1, pr.2))
  | _ => (findClose ps).map (fun pr => (false, pr.1, pr.2))

/-- Glob matching of a pattern against a whole string: `*` matches any
(possibly empty) sequence, `?` any single character, `[...]`/`[!...]`
bracket expressions; other characters match themselves.  The first
argument is recursion fuel: every step shortens pattern-plus-string, so
`length pattern + length string + 1` always suffices. -/
def globMatchFuel : Nat → List Char → List Char → Bool
  | 0, _, _ => false
  | _ + 1, [], [] => true
  | _ + 1, [], _ :: _ => false
  | k + 1, '*' :: ps, [] => globMatchFuel k ps []
  | k + 1, '*' :: ps, c :: cs =>
    globMatchFuel k ps (c :: cs) || globMatchFuel k ('*' :: ps) cs
  | _ + 1, '?' :: _, [] => false
  | k + 1, '?' :: ps, _ :: cs => globMatchFuel k ps cs
  | k + 1, '[' :: ps, cs =>
    (match parseBracket ps, cs with
     | some _, [] => false
     | some (neg, body, rest), c :: cs2 => (matchSet body c != neg) && globMatchFuel k rest cs2
     | none, [] => false
     | none, c :: cs2 => ('[' == c) && globMatchFuel k ps cs2)
  | _ + 1, _ :: _, [] => false
  | k + 1, p :: ps, c :: cs => (p == c) && globMatchFuel k ps cs

/-- Glob matching with enough fuel for the whole run. -/
def globMatch (p s : List Char) : Bool :=
  globMatchFuel (p.length + s.length + 1) p s

/-- `fnmatch.fnmatch(name, pat)` on a POSIX system (no case folding). -/
def fnmatch (name pat : String) : Bool :=
  globMatch pat.toList name.toList

/-! ### String primitives, character-list based so that they evaluate -/

/-- `str.lower()` (ASCII case folding suffices for the names modelled). -/
def pyLower (s : String) : String :=
  ⟨s.data.map Char.toLower⟩

/-- `str.startswith(p)`. -/
def strStartsWith (s p : String) : Bool :=
  p.data.isPrefixOf s.data

/-- Lexicographic comparison of character lists by code point, the
comparison Python's `<=` performs on strings. -/
def charListLe : List Char → List Char → Bool
  | [], _ => true
  | _ :: _, [] => false
  | a :: as, b :: bs => a < b || (a == b && charListLe as bs)

/-- `a <= b` on Python strings. -/
def strLe (a b : String) : Bool :=
  charListLe a.data b.data

/-! ### Filesystem model -/

/-- Kind of a directory entry, determined without following symlinks. -/
inductive EntryKind
  | file
  | directory
  | symlink
  | other
deriving DecidableEq, Repr

/-- One `os.scandir` entry: its name, its kind, and whether the
`is_file` metadata access fails with `OSError`. -/
structure DirEntry where
  name : String
  kind : EntryKind
  metaFail : Bool
deriving DecidableEq, Repr

/-- What a resolved path refers to.  For a directory, `perm = false`
means opening it for enumeration raises `PermissionError`. -/
inductive Node
  | absent
  | file
  | dir (perm : Bool) (entries : List DirEntry)
deriving DecidableEq

/-- The ambient filesystem: current working directory, path resolution,
and what each resolved path refers to. -/
structure FS where
  cwd : String
  resolve : String → String
  lookup : String → Node

/-- Python exceptions raised by `list_files_in_directory`. -/
inductive PyError
  | fileNotFoundError
  | valueError
  | permissionError
deriving DecidableEq, Repr

/-- A `pathlib.Path` built from `os.path.join(dir_path, entry.name)`:
its parent directory and its base name (`Path.name`). -/
structure PyPath where
  parent : String
  name : String
deriving DecidableEq, Repr

/-- A result element: a bare file name (`return_paths=False`) or a
`Path` (`return_paths=True`). -/
inductive ScanItem
  | str (s : String)
  | path (p : PyPath)
deriving DecidableEq, Repr

/-- The sort key of the source:
`x.name.lower() if isinstance(x, Path) else x.lower()`. -/
def ScanItem.lowerKey : ScanItem → String
  | .str s => pyLower s
  | .path p => pyLower p.name

/-- The (base) name an item denotes. -/
def ScanItem.itemName : ScanItem → String
  | .str s => s
  | .path p => p.name

/-- Log levels used by the function (`logger.exception` logs at ERROR). -/
inductive LogLevel
  | info
  | error
deriving DecidableEq, Repr

/-- One emitted log record. -/
structure LogRecord where
  level : LogLevel
  msg : String
deriving DecidableEq, Repr

/-- Python truthiness of the optional `pattern` argument:
`None` and `""` are falsy. -/
def patternTruthy : Option String → Bool
  | none => false
  | some s => !(s == "")

/-- `%s` formatting of the optional pattern in the final info log. -/
def patternRepr : Option String → String
  | none => "None"
  | some s => s

/-! ### `list_files_in_directory` -/

/-- The per-entry loop body as a predicate: an entry survives when its
metadata is readable, it is a regular file (symlinks not followed), it is
not hidden unless `show_hidden`, and it matches a truthy `pattern`. -/
def keepEntry (pattern : Option String) (show_hidden : Bool) (e : DirEntry) : Bool :=
  if e.metaFail then false
  else if e.kind != EntryKind.file then false
  else if !show_hidden && strStartsWith e.name "." then false
  else if patternTruthy pattern && !(fnmatch e.name (pattern.getD "")) then false
  else true

/-- `charListLe` is total. -/
theorem charListLe_total : ∀ as bs : List Char, charListLe as bs || charListLe bs as := by
  intro as
  induction as with
  | nil => intro bs; simp [charListLe]
  | cons a as ih =>
    intro bs
    cases bs with
    | nil => simp [charListLe]
    | cons b bs =>
      simp only [charListLe, Bool.or_eq_true, Bool.and_eq_true, beq_iff_eq,
        decide_eq_true_eq]
      rcases lt_trichotomy a b with h | h | h
      · exact Or.inl (Or.inl h)
      · subst h
        have := ih bs
        simp only [Bool.or_eq_true] at this
        rcases this with h2 | h2
        · exact Or.inl (Or.inr ⟨rfl, h2⟩)
        · exact Or.inr (Or.inr ⟨rfl, h2⟩)
      · exact Or.inr (Or.inl h)

/-- `charListLe` is transitive. -/
theorem charListLe_trans : ∀ as bs cs : List Char,
    charListLe as bs = true → charListLe bs cs = true → charListLe as cs = true := by
  intro as
  induction as with
  | nil => intro bs cs _ _; rfl
  | cons a as ih =>
    intro bs cs hab hbc
    cases bs with
    | nil => simp [charListLe] at hab
    | cons b bs =>
      cases cs with
      | nil => simp [charListLe] at hbc
      | cons c cs =>
        simp only [charListLe, Bool.or_eq_true, Bool.and_eq_true, beq_iff_eq,
          decide_eq_true_eq] at hab hbc ⊢
        rcases hab with hab | ⟨hab, hab2⟩
        · rcases hbc with hbc | ⟨hbc, _⟩
          · exact Or.inl (lt_trans hab hbc)
          · exact Or.inl (hbc ▸ hab)
        · subst hab
          rcases hbc with hbc | ⟨hbc, hbc2⟩
          · exact Or.inl hbc
          · subst hbc
            exact Or.inr ⟨rfl, ih bs cs hab2 hbc2⟩

/-- The comparison the `results.sort(key=...)` call induces. -/
def itemLe (a b : ScanItem) : Prop :=
  strLe a.lowerKey b.lowerKey = true

instance : DecidableRel itemLe :=
  fun a b => inferInstanceAs (Decidable (strLe a.lowerKey b.lowerKey = true))

instance : IsTotal ScanItem itemLe :=
  ⟨fun a b => by
    have h := charListLe_total a.lowerKey.data b.lowerKey.data
    simp only [Bool.or_eq_true] at h
    exact h⟩

instance : IsTrans ScanItem itemLe :=
  ⟨fun _ _ _ hab hbc => charListLe_trans _ _ _ hab hbc⟩

/-- Enumeration, filtering, optional `Path` construction and the final
case-insensitive sort, for a directory that could be opened.
`list.sort` is a stable sort; insertion sort is the embedding's stable
sort (a stable sort's output is determined by the key order and the
input order, so any stable sort is interchangeable here). -/
def scanResults (dir_path : String) (pattern : Option String)
    (show_hidden return_paths : Bool) (entries : List DirEntry) : List ScanItem :=
  let results := (entries.filter (keepEntry pattern show_hidden)).map
    (fun e => if return_paths then ScanItem.path ⟨dir_path, e.name⟩ else ScanItem.str e.name)
  results.insertionSort itemLe

/-- Lines 39–42 of the source: default to the current working directory,
otherwise resolve the supplied path. -/
def resolved_dir_path (fs : FS) (path : Option String) : String :=
  match path with
  | none => fs.cwd
  | some p => fs.resolve p

/-- The body of `list_files_in_directory` from the existence check on,
acting on the already-resolved directory path.  Returns the emitted log
records together with either the sorted results or the raised error. -/
def list_files_core (fs : FS) (dir_path : String) (pattern : Option String)
    (show_hidden return_paths : Bool) :
    List LogRecord × Except PyError (List ScanItem) :=
  match fs.lookup dir_path with
  | Node.absent =>
    ([⟨LogLevel.error, "Directory not found: " ++ dir_path⟩],
      Except.error PyError.fileNotFoundError)
  | Node.file =>
    ([⟨LogLevel.error, "Path is not a directory: " ++ dir_path⟩],
      Except.error PyError.valueError)
  | Node.dir perm entries =>
    if perm then
      let sorted := scanResults dir_path pattern show_hidden return_paths entries
      ([⟨LogLevel.info, "Found " ++ toString sorted.length ++ " files in '"
          ++ dir_path ++ "' (pattern: " ++ patternRepr pattern ++ ")"⟩],
        Except.ok sorted)
    else
      ([⟨LogLevel.error, "Permission denied accessing directory: " ++ dir_path⟩],
        Except.error PyError.permissionError)

/-- `list_files_in_directory(path, pattern, show_hidden, return_paths)`. -/
def list_files_in_directory (fs : FS) (path : Option String)
    (pattern : Option String) (show_hidden return_paths : Bool) :
    List LogRecord × Except PyError (List ScanItem) :=
  list_files_core fs (resolved_dir_path fs path) pattern show_hidden return_paths

/-! ### `setup_logger` -/

/-- The process-wide logging state: the module-global `_LOGGER_CONFIGURED`
flag and, per logger name, how many handlers are attached. -/
structure LoggerState where
  configured : Bool
  handlers : String → Nat

/-- The state at process start: flag unset, no handlers anywhere. -/
def initLoggerState : LoggerState :=
  { configured := false, handlers := fun _ => 0 }

/-- `setup_logger(name, level, log_file, use_console)` as a transformer of
the logging state.  It returns early when this logger already has handlers
and the global flag is set; otherwise it attaches two console handlers
(stdout and stderr) when `use_console`, one file handler when `log_file`
is given, and sets the global flag. -/
def setup_logger (name : String) (use_console : Bool) (log_file : Option String)
    (st : LoggerState) : LoggerState :=
  if st.handlers name != 0 && st.configured then st
  else
    { configured := true,
      handlers := fun n =>
        if n == name then
          st.handlers n + (if use_console then 2 else 0)
            + (if log_file.isSome then 1 else 0)
        else st.handlers n }

/-! ### Sample filesystems used as witnesses -/

/-- The directory of the spec's worked example: regular files `B.txt`,
`a.txt`, `.hidden` and a subdirectory `sub/`. -/
def sampleDir : List DirEntry :=
  [⟨"B.txt", EntryKind.file, false⟩, ⟨"a.txt", EntryKind.file, false⟩,
   ⟨".hidden", EntryKind.file, false⟩, ⟨"sub", EntryKind.directory, false⟩]

/-- A filesystem whose `/data` directory holds the given entries. -/
def sampleFS (es : List DirEntry) : FS :=
  { cwd := "/home/user", resolve := fun s => s,
    lookup := fun p => if p == "/data" then Node.dir true es else Node.absent }

/-- A directory mixing a readable regular file, a regular file whose
metadata read fails, a subdirectory and a symlink. -/
def messyDir : List DirEntry :=
  [⟨"ok.txt", EntryKind.file, false⟩, ⟨"ghost.txt", EntryKind.file, true⟩,
   ⟨"sub", EntryKind.directory, false⟩, ⟨"link.txt", EntryKind.symlink, false⟩]

/-- A filesystem with a regular file at `/afile` and nothing else. -/
def fileOnlyFS : FS :=
  { cwd := "/home/user", resolve := fun s => s,
    lookup := fun p => if p == "/afile" then Node.file else Node.absent }

/-- A filesystem whose `/locked` directory cannot be enumerated. -/
def deniedFS : FS :=
  { cwd := "/home/user", resolve := fun s => s,
    lookup := fun p => if p == "/locked" then Node.dir false sampleDir else Node.absent }

/-- A filesystem whose resolver always lands on the absolute `/data`. -/
def absFS : FS :=
  { cwd := "/home/user", resolve := fun _ => "/data",
    lookup := fun p => if p == "/data" then Node.dir true sampleDir else Node.absent }

/-! ### Helper lemmas -/

/-- The survival test written as one boolean conjunction. -/
theorem keepEntry_iff (pat : Option String) (sh : Bool) (e : DirEntry) :
    keepEntry pat sh e
      = (!e.metaFail && (e.kind == EntryKind.file)
          && (sh || !(strStartsWith e.name "."))
          && (!(patternTruthy pat) || fnmatch e.name (pat.getD ""))) := by
  unfold keepEntry
  cases hm : e.metaFail <;> cases hk : (e.kind == EntryKind.file) <;>
    cases hsh : sh <;> cases hst : strStartsWith e.name "." <;>
      cases ht : patternTruthy pat <;> cases hf : fnmatch e.name (pat.getD "") <;>
        simp_all [bne]

/-- A surviving entry is a regular file whose metadata was readable. -/
theorem keepEntry_good {pat : Option String} {sh : Bool} {e : DirEntry}
    (h : keepEntry pat sh e = true) :
    (!e.metaFail && (e.kind == EntryKind.file)) = true := by
  rw [keepEntry_iff] at h
  simp only [Bool.and_eq_true] at h
  simp [h.1.1.1, h.1.1.2]

/-- With a non-empty pattern supplied, every surviving entry matches it. -/
theorem keepEntry_fnmatch {p : String} {sh : Bool} {e : DirEntry} (hp : p ≠ "")
    (h : keepEntry (some p) sh e = true) : fnmatch e.name p = true := by
  rw [keepEntry_iff] at h
  simp only [Bool.and_eq_true, Bool.or_eq_true, patternTruthy, Option.getD] at h
  rcases h.2 with h2 | h2
  · rw [Bool.not_not] at h2
    exact absurd (eq_of_beq h2) hp
  · exact h2

/-- An entry surviving some supplied pattern survives the no-pattern call. -/
theorem keepEntry_none_of_some {p : String} {sh : Bool} {e : DirEntry}
    (h : keepEntry (some p) sh e = true) : keepEntry none sh e = true := by
  rw [keepEntry_iff] at h ⊢
  simp only [Bool.and_eq_true] at h
  simp [h.1.1.1, h.1.1.2, h.1.2, patternTruthy]

/-- Turning an item into the bare name preserves the sort key. -/
theorem lowerKey_str_itemName (a : ScanItem) :
    (ScanItem.str a.itemName).lowerKey = a.lowerKey := by
  cases a <;> rfl

/-- Replacing each `Path` result by its base name turns the
`return_paths=True` scan into the `return_paths=False` scan. -/
theorem scanResults_map_name (d : String) (pat : Option String) (sh : Bool)
    (es : List DirEntry) :
    (scanResults d pat sh true es).map (fun it => ScanItem.str it.itemName)
      = scanResults d pat sh false es := by
  simp only [scanResults]
  rw [List.map_insertionSort itemLe itemLe (fun it => ScanItem.str it.itemName) _
    (fun a _ b _ => by simp [itemLe, lowerKey_str_itemName])]
  rw [List.map_map]
  rfl

/-- Entries that are not regular files, or whose metadata read fails,
contribute nothing: filtering them away first changes no scan. -/
theorem filter_keepEntry_good (pat : Option String) (sh : Bool) (es : List DirEntry) :
    es.filter (keepEntry pat sh)
      = (es.filter (fun e => !e.metaFail && (e.kind == EntryKind.file))).filter
          (keepEntry pat sh) := by
  rw [List.filter_filter]
  apply List.filter_congr
  intro e _
  cases hk : keepEntry pat sh e
  · simp
  · simp [keepEntry_good hk]

/-- The same, lifted to whole scans. -/
theorem scanResults_filter_good (d : String) (pat : Option String) (sh rp : Bool)
    (es : List DirEntry) :
    scanResults d pat sh rp es
      = scanResults d pat sh rp
          (es.filter (fun e => !e.metaFail && (e.kind == EntryKind.file))) := by
  simp only [scanResults]
  rw [← filter_keepEntry_good]

/-! ### The claims -/

/-- C1: on a directory holding exactly the regular files `B.txt` and
`a.txt`, the hidden file `.hidden` and the subdirectory `sub/`, whatever
order `os.scandir` yields them in, the default call returns
`["a.txt", "B.txt"]`, `show_hidden=True` returns
`[".hidden", "a.txt", "B.txt"]`, and `pattern="*.txt"` returns
`["a.txt", "B.txt"]`. -/
theorem c1_example_directory :
    (sampleDir.permutations'.all (fun es =>
      ((list_files_in_directory (sampleFS es) (some "/data") none false false).2
          == Except.ok [ScanItem.str "a.txt", ScanItem.str "B.txt"])
      && ((list_files_in_directory (sampleFS es) (some "/data") none true false).2
          == Except.ok [ScanItem.str ".hidden", ScanItem.str "a.txt", ScanItem.str "B.txt"])
      && ((list_files_in_directory (sampleFS es) (some "/data") (some "*.txt") false false).2
          == Except.ok [ScanItem.str "a.txt", ScanItem.str "B.txt"]))) = true := by
  decide

/-- C2: whenever the resolved path does not exist the call raises
`FileNotFoundError`, and whenever it exists but is not a directory the
call raises `ValueError`; in both cases no list is returned. -/
theorem c2_missing_or_nondir_raises (fs : FS) (path pattern : Option String)
    (sh rp : Bool) :
    (fs.lookup (resolved_dir_path fs path) = Node.absent →
      (list_files_in_directory fs path pattern sh rp).2
        = Except.error PyError.fileNotFoundError)
    ∧ (fs.lookup (resolved_dir_path fs path) = Node.file →
      (list_files_in_directory fs path pattern sh rp).2
        = Except.error PyError.valueError) := by
  constructor <;> intro h <;>
    simp [list_files_in_directory, list_files_core, h]

/-- C2 witness: a concrete missing path and a concrete regular file. -/
theorem c2_missing_or_nondir_raises_witness :
    (list_files_in_directory fileOnlyFS (some "/nope") none false false).2
        = Except.error PyError.fileNotFoundError
    ∧ (list_files_in_directory fileOnlyFS (some "/afile") none false false).2
        = Except.error PyError.valueError :=
  ⟨(c2_missing_or_nondir_raises fileOnlyFS (some "/nope") none false false).1 (by decide),
   (c2_missing_or_nondir_raises fileOnlyFS (some "/afile") none false false).2 (by decide)⟩

/-- C3: every successful call returns a list that is pairwise sorted
ascending by the case-folded name. -/
theorem c3_sorted_case_insensitive (fs : FS) (path pattern : Option String)
    (sh rp : Bool) (l : List ScanItem)
    (h : (list_files_in_directory fs path pattern sh rp).2 = Except.ok l) :
    l.Pairwise (fun a b => strLe a.lowerKey b.lowerKey = true) := by
  cases hl : fs.lookup (resolved_dir_path fs path) with
  | absent => simp [list_files_in_directory, list_files_core, hl] at h
  | file => simp [list_files_in_directory, list_files_core, hl] at h
  | dir perm entries =>
    cases perm with
    | false => simp [list_files_in_directory, list_files_core, hl] at h
    | true =>
      simp only [list_files_in_directory, list_files_core, hl, if_true,
        Except.ok.injEq] at h
      subst h
      simpa [scanResults] using
        List.sorted_insertionSort itemLe
          (((entries.filter (keepEntry pattern sh)).map
            (fun e => if rp then ScanItem.path ⟨resolved_dir_path fs path, e.name⟩
              else ScanItem.str e.name)))

/-- C3 witness: the sorted list of the worked example. -/
theorem c3_sorted_case_insensitive_witness :
    ([ScanItem.str "a.txt", ScanItem.str "B.txt"]).Pairwise
      (fun a b => strLe a.lowerKey b.lowerKey = true) :=
  c3_sorted_case_insensitive (sampleFS sampleDir) (some "/data") none false false _ rfl

/-- C4 counterexample: the empty string is a supplied pattern, yet the
call returns every file while `fnmatch` matches none of them against
`""`; so "every name returned matches the supplied pattern" fails at
`pattern=""`. -/
theorem c4_counterexample :
    (list_files_in_directory (sampleFS sampleDir) (some "/data") (some "") false false).2
        = Except.ok [ScanItem.str "a.txt", ScanItem.str "B.txt"]
    ∧ fnmatch "a.txt" "" = false :=
  ⟨rfl, rfl⟩

/-- C4 amended: for every supplied NON-EMPTY glob pattern `p`, every
name returned matches `p` glob-style, and every returned item also
appears in the result of the same call without a pattern. -/
theorem c4_nonempty_pattern_filters (fs : FS) (path : Option String) (p : String)
    (sh rp : Bool) (l l0 : List ScanItem) (it : ScanItem)
    (hp : p ≠ "")
    (h : (list_files_in_directory fs path (some p) sh rp).2 = Except.ok l)
    (hit : it ∈ l)
    (h0 : (list_files_in_directory fs path none sh rp).2 = Except.ok l0) :
    fnmatch it.itemName p = true ∧ it ∈ l0 := by
  cases hl : fs.lookup (resolved_dir_path fs path) with
  | absent => simp [list_files_in_directory, list_files_core, hl] at h
  | file => simp [list_files_in_directory, list_files_core, hl] at h
  | dir perm entries =>
    cases perm with
    | false => simp [list_files_in_directory, list_files_core, hl] at h
    | true =>
      simp only [list_files_in_directory, list_files_core, hl, if_true,
        Except.ok.injEq] at h h0
      subst h
      subst h0
      simp only [scanResults, List.mem_insertionSort, List.mem_map,
        List.mem_filter] at hit
      obtain ⟨e, ⟨he, hkeep⟩, rfl⟩ := hit
      have hname : (if rp then ScanItem.path ⟨resolved_dir_path fs path, e.name⟩
          else ScanItem.str e.name).itemName = e.name := by
        cases rp <;> rfl
      constructor
      · rw [hname]
        exact keepEntry_fnmatch hp hkeep
      · simp only [scanResults, List.mem_insertionSort, List.mem_map, List.mem_filter]
        exact ⟨e, ⟨he, keepEntry_none_of_some hkeep⟩, rfl⟩

/-- C4 witness: `a.txt` returned under `*.txt` matches the pattern and
appears in the unfiltered call's result. -/
theorem c4_nonempty_pattern_filters_witness :
    fnmatch (ScanItem.str "a.txt").itemName "*.txt" = true
    ∧ ScanItem.str "a.txt" ∈ [ScanItem.str "a.txt", ScanItem.str "B.txt"] :=
  c4_nonempty_pattern_filters (sampleFS sampleDir) (some "/data") "*.txt" false false
    [ScanItem.str "a.txt", ScanItem.str "B.txt"]
    [ScanItem.str "a.txt", ScanItem.str "B.txt"]
    (ScanItem.str "a.txt") (by decide) rfl (by decide) rfl

/-- C5: the `return_paths=True` list has the same length as the
`return_paths=False` list of the otherwise-identical call, and
position by position the base name of the path is the name. -/
theorem c5_paths_correspond_to_names (fs : FS) (path pattern : Option String)
    (sh : Bool) (lp ln : List ScanItem)
    (hp : (list_files_in_directory fs path pattern sh true).2 = Except.ok lp)
    (hn : (list_files_in_directory fs path pattern sh false).2 = Except.ok ln) :
    lp.length = ln.length
    ∧ ∀ i : Nat, (lp[i]?.map (fun it => ScanItem.str it.itemName)) = ln[i]? := by
  cases hl : fs.lookup (resolved_dir_path fs path) with
  | absent => simp [list_files_in_directory, list_files_core, hl] at hp
  | file => simp [list_files_in_directory, list_files_core, hl] at hp
  | dir perm entries =>
    cases perm with
    | false => simp [list_files_in_directory, list_files_core, hl] at hp
    | true =>
      simp only [list_files_in_directory, list_files_core, hl, if_true,
        Except.ok.injEq] at hp hn
      subst hp
      subst hn
      have hmap := scanResults_map_name (resolved_dir_path fs path) pattern sh entries
      constructor
      · rw [← hmap, List.length_map]
      · intro i
        rw [← hmap, List.getElem?_map]

/-- C5 witness: the worked example with paths versus names. -/
theorem c5_paths_correspond_to_names_witness :
    ([ScanItem.path ⟨"/data", "a.txt"⟩, ScanItem.path ⟨"/data", "B.txt"⟩].length
      = [ScanItem.str "a.txt", ScanItem.str "B.txt"].length)
    ∧ (([ScanItem.path ⟨"/data", "a.txt"⟩,
          ScanItem.path ⟨"/data", "B.txt"⟩][0]?).map (fun it => ScanItem.str it.itemName)
        = [ScanItem.str "a.txt", ScanItem.str "B.txt"][0]?) :=
  ⟨(c5_paths_correspond_to_names (sampleFS sampleDir) (some "/data") none false
      _ _ rfl rfl).1,
   (c5_paths_correspond_to_names (sampleFS sampleDir) (some "/data") none false
      _ _ rfl rfl).2 0⟩

/-- C6: a permission failure on enumeration is logged at error level and
re-raised, and a successful call returns exactly the full filtered and
sorted scan of the directory — never a partial list. -/
theorem c6_permission_propagates (fs : FS) (path pattern : Option String)
    (sh rp : Bool) :
    (∀ entries, fs.lookup (resolved_dir_path fs path) = Node.dir false entries →
      (list_files_in_directory fs path pattern sh rp).2
          = Except.error PyError.permissionError
      ∧ (list_files_in_directory fs path pattern sh rp).1
          = [⟨LogLevel.error,
              "Permission denied accessing directory: " ++ resolved_dir_path fs path⟩])
    ∧ (∀ (l : List ScanItem) entries,
        (list_files_in_directory fs path pattern sh rp).2 = Except.ok l →
        fs.lookup (resolved_dir_path fs path) = Node.dir true entries →
        l = scanResults (resolved_dir_path fs path) pattern sh rp entries) := by
  constructor
  · intro entries h
    constructor <;> simp [list_files_in_directory, list_files_core, h]
  · intro l entries h hl
    simp only [list_files_in_directory, list_files_core, hl, if_true,
      Except.ok.injEq] at h
    exact h.symm

/-- C6 witness: a locked directory raises and logs; an accessible one
returns the full sorted scan. -/
theorem c6_permission_propagates_witness :
    ((list_files_in_directory deniedFS (some "/locked") none false false).2
        = Except.error PyError.permissionError
      ∧ (list_files_in_directory deniedFS (some "/locked") none false false).1
          = [⟨LogLevel.error,
              "Permission denied accessing directory: "
                ++ resolved_dir_path deniedFS (some "/locked")⟩])
    ∧ [ScanItem.str "a.txt", ScanItem.str "B.txt"]
        = scanResults (resolved_dir_path (sampleFS sampleDir) (some "/data"))
            none false false sampleDir :=
  ⟨(c6_permission_propagates deniedFS (some "/locked") none false false).1
      sampleDir (by decide),
   (c6_permission_propagates (sampleFS sampleDir) (some "/data") none false false).2
      [ScanItem.str "a.txt", ScanItem.str "B.txt"] sampleDir rfl (by decide)⟩

/-- C7: entries that are not regular files (symlinks not followed) and
entries whose metadata read fails are skipped silently — dropping them
beforehand changes no scan — and a readable directory always yields a
full result, never an aborted one. -/
theorem c7_skips_nonregular_silently (fs : FS) (path pattern : Option String)
    (sh rp : Bool) :
    (∀ (d : String) (entries : List DirEntry),
      scanResults d pattern sh rp entries
        = scanResults d pattern sh rp
            (entries.filter (fun e => !e.metaFail && (e.kind == EntryKind.file))))
    ∧ (∀ entries, fs.lookup (resolved_dir_path fs path) = Node.dir true entries →
        (list_files_in_directory fs path pattern sh rp).2
          = Except.ok (scanResults (resolved_dir_path fs path) pattern sh rp entries)) := by
  constructor
  · intro d entries
    exact scanResults_filter_good d pattern sh rp entries
  · intro entries hl
    simp [list_files_in_directory, list_files_core, hl]

/-- C7 witness: a directory with a metadata-failing entry, a
subdirectory and a symlink scans exactly like the directory with them
removed, and still returns a full result. -/
theorem c7_skips_nonregular_silently_witness :
    (scanResults "/data" none false false messyDir
      = scanResults "/data" none false false
          (messyDir.filter (fun e => !e.metaFail && (e.kind == EntryKind.file))))
    ∧ (list_files_in_directory (sampleFS messyDir) (some "/data") none false false).2
        = Except.ok (scanResults (resolved_dir_path (sampleFS messyDir) (some "/data"))
            none false false messyDir) :=
  ⟨(c7_skips_nonregular_silently (sampleFS messyDir) (some "/data") none false false).1
      "/data" messyDir,
   (c7_skips_nonregular_silently (sampleFS messyDir) (some "/data") none false false).2
      messyDir (by decide)⟩

/-- C8 counterexample: after a first successful configuration (the call
for logger `omnipy`, which sets the global flag and attaches its two
console handlers), a later call with a DIFFERENT name attaches two more
handlers to that other logger — handler attachment is once per logger
name, not once per process. -/
theorem c8_counterexample :
    (setup_logger "omnipy" true none initLoggerState).configured = true
    ∧ (setup_logger "omnipy" true none initLoggerState).handlers "io_helper.file_ops" = 0
    ∧ (setup_logger "io_helper.file_ops" true none
        (setup_logger "omnipy" true none initLoggerState)).handlers "io_helper.file_ops"
        = 2 :=
  ⟨rfl, rfl, rfl⟩

/-- C8 amended: for any fixed name argument, once a configuring call has
attached at least one handler to that logger (console handlers requested
or a log file given), every further `setup_logger` call for the same
name attaches nothing — it returns with the state unchanged. -/
theorem c8_no_duplicate_handlers_per_name (st : LoggerState) (name : String)
    (uc lf uc2 lf2 : _) (h : uc = true ∨ lf.isSome = true) :
    setup_logger name uc2 lf2 (setup_logger name uc lf st)
      = setup_logger name uc lf st := by
  have key : ∀ st2 : LoggerState, st2.configured = true → st2.handlers name ≠ 0 →
      setup_logger name uc2 lf2 st2 = st2 := by
    intro st2 h1 h2
    unfold setup_logger
    simp [h1, h2]
  by_cases hg : (st.handlers name != 0 && st.configured) = true
  · have hst : setup_logger name uc lf st = st := by
      unfold setup_logger
      simp [hg]
    rw [hst]
    simp only [Bool.and_eq_true, bne_iff_ne, ne_eq] at hg
    exact key st hg.2 hg.1
  · have hst : setup_logger name uc lf st
        = { configured := true,
            handlers := fun n =>
              if n == name then
                st.handlers n + (if uc then 2 else 0)
                  + (if lf.isSome then 1 else 0)
              else st.handlers n } := by
      unfold setup_logger
      simp only [hg, if_false]
      rfl
    rw [hst]
    apply key
    · rfl
    · simp only [beq_self_eq_true, if_true]
      rcases h with h | h <;> simp [h]

/-- C8 amended witness: a repeat call for the same already-configured
logger changes nothing. -/
theorem c8_no_duplicate_handlers_per_name_witness :
    setup_logger "omnipy" false none (setup_logger "omnipy" true none initLoggerState)
      = setup_logger "omnipy" true none initLoggerState :=
  c8_no_duplicate_handlers_per_name initLoggerState "omnipy" true none false none
    (Or.inl rfl)

/-- C9: when `path` is absent the current working directory is used;
the directory path actually used is absolute (given that the resolver
produces absolute paths and the working directory is absolute, as on any
POSIX process); and the existence check, the type check and the
enumeration all act on that one resolved path. -/
theorem c9_resolved_absolute_path (fs : FS) (path pattern : Option String)
    (sh rp : Bool)
    (hres : ∀ s, strStartsWith (fs.resolve s) "/" = true)
    (hcwd : strStartsWith fs.cwd "/" = true) :
    (path = none → resolved_dir_path fs path = fs.cwd)
    ∧ strStartsWith (resolved_dir_path fs path) "/" = true
    ∧ list_files_in_directory fs path pattern sh rp
        = list_files_core fs (resolved_dir_path fs path) pattern sh rp := by
  refine ⟨fun h => by rw [h]; rfl, ?_, rfl⟩
  cases path with
  | none => exact hcwd
  | some p => exact hres p

/-- C9 witness: a resolver that always lands on `/data`. -/
theorem c9_resolved_absolute_path_witness :
    (some "anything" = none → resolved_dir_path absFS (some "anything") = absFS.cwd)
    ∧ strStartsWith (resolved_dir_path absFS (some "anything")) "/" = true
    ∧ list_files_in_directory absFS (some "anything") none false false
        = list_files_core absFS (resolved_dir_path absFS (some "anything"))
            none false false :=
  c9_resolved_absolute_path absFS (some "anything") none false false
    (fun _ => rfl) rfl

/-- C10: the empty-string pattern is falsy in `if pattern and ...`, so
`pattern=""` behaves exactly like no pattern: the same value is
returned for every filesystem and argument combination. -/
theorem c10_empty_pattern_like_none (fs : FS) (path : Option String) (sh rp : Bool) :
    (list_files_in_directory fs path (some "") sh rp).2
      = (list_files_in_directory fs path none sh rp).2 := by
  cases hl : fs.lookup (resolved_dir_path fs path) with
  | absent => simp [list_files_in_directory, list_files_core, hl]
  | file => simp [list_files_in_directory, list_files_core, hl]
  | dir perm entries =>
    cases perm with
    | false => simp [list_files_in_directory, list_files_core, hl]
    | true =>
      simp only [list_files_in_directory, list_files_core, hl, if_true,
        Except.ok.injEq]
      simp only [scanResults]
      have hfe : ∀ e ∈ entries, keepEntry (some "") sh e = keepEntry none sh e := by
        intro e _
        rw [keepEntry_iff, keepEntry_iff]
        rfl
      rw [List.filter_congr hfe]

end Omnipy
